import Mathlib

/-!
# EC2Command: a shallow embedding of `EC2Command.go`

The program is a linear script over two provider APIs.  Its effects are
recorded in a trace of events; the provider, the file system and the library
functions it calls are parameters (`Env`).  A panic (Go `panic`, or the
dereference of a nil pointer) ends the run with `Res.panic`; the two polling
loops have no bound in the source, so they take a fuel argument and a run that
is still polling when the fuel is spent ends with `Res.polling`.
-/

namespace EC2Command

/-! ## Data model -/

/-- The struct `GlobalsData`: the two options decoded from the options file. -/
structure GlobalsData where
  InstanceID : String
  DomainZoneID : String
  deriving DecidableEq, Repr

/-- The SDK type `ec2.Filter`. -/
structure Filter where
  Name : String
  Values : List String
  deriving DecidableEq, Repr

/-- The SDK type `ec2.DescribeInstanceStatusInput`, with the fields the program sets. -/
structure DescribeInstanceStatusInput where
  Filters : List Filter
  IncludeAllInstances : Bool
  InstanceIds : List String
  deriving DecidableEq, Repr

/-- The SDK type `ec2.InstanceState`; `Name` is a `*string`, `none` is nil. -/
structure InstanceState where
  Name : Option String
  deriving DecidableEq, Repr

/-- The SDK type `ec2.InstanceStatus`; both fields are pointers, `none` is nil. -/
structure InstanceStatus where
  InstanceId : Option String
  InstanceState : Option InstanceState
  deriving DecidableEq, Repr

/-- The SDK type `ec2.DescribeInstanceStatusOutput`. -/
structure DescribeInstanceStatusOutput where
  InstanceStatuses : List InstanceStatus
  deriving DecidableEq, Repr

/-- The SDK type `ec2.DescribeInstancesInput`, with the field the program sets. -/
structure DescribeInstancesInput where
  InstanceIds : List String
  deriving DecidableEq, Repr

/-- The SDK type `ec2.Instance`; both fields are `*string`, `none` is nil
(the provider leaves `PublicIpAddress` out for an instance without a public address). -/
structure Instance where
  InstanceId : Option String
  PublicIpAddress : Option String
  deriving DecidableEq, Repr

/-- The SDK type `ec2.Reservation`. -/
structure Reservation where
  Instances : List Instance
  deriving DecidableEq, Repr

/-- The SDK type `ec2.DescribeInstancesOutput`. -/
structure DescribeInstancesOutput where
  Reservations : List Reservation
  deriving DecidableEq, Repr

/-- The SDK type `route53.ResourceRecord`. -/
structure ResourceRecord where
  Value : String
  deriving DecidableEq, Repr

/-- The SDK type `route53.ResourceRecordSet` (`RecordType` is the field `Type`). -/
structure ResourceRecordSet where
  Name : String
  ResourceRecords : List ResourceRecord
  TTL : Int
  RecordType : String
  deriving DecidableEq, Repr

/-- The SDK type `route53.Change`. -/
structure Change where
  Action : String
  ResourceRecordSet : ResourceRecordSet
  deriving DecidableEq, Repr

/-- The SDK type `route53.ChangeBatch`. -/
structure ChangeBatch where
  Changes : List Change
  Comment : String
  deriving DecidableEq, Repr

/-- The SDK type `route53.ChangeResourceRecordSetsInput`. -/
structure ChangeResourceRecordSetsInput where
  ChangeBatch : ChangeBatch
  HostedZoneId : String
  deriving DecidableEq, Repr

/-- A Go `error` returned by the DNS call: an `awserr.Error` with its code, or any
other error; `text` is what `Error()` returns. -/
inductive GoError where
  | awserr (code : String) (text : String)
  | other (text : String)
  deriving DecidableEq, Repr

/-- What the program does to the outside world, in order. -/
inductive Event where
  | readFile (filename : String)
  | newSession (region : String)
  | describeInstanceStatus (input : DescribeInstanceStatusInput)
  | describeInstances (input : DescribeInstancesInput)
  | startInstances (instanceIds : List String)
  | stopInstances (instanceIds : List String)
  | changeResourceRecordSets (input : ChangeResourceRecordSetsInput)
  | sleep (seconds : Nat)
  | println (line : String)
  deriving DecidableEq, Repr

/-- Everything outside the program: the file system, the JSON library and the
provider.  The k-th status query and the k-th describe-instances query (counted
from 0 within one run) may each answer differently. -/
structure Env where
  readFile : String → Except String String
  jsonValid : String → Bool
  jsonUnmarshal : String → Except String GlobalsData
  newSession : String → Except String Unit
  describeInstanceStatus : Nat → DescribeInstanceStatusInput →
    Except String DescribeInstanceStatusOutput
  describeInstances : Nat → DescribeInstancesInput → DescribeInstancesOutput
  changeResourceRecordSets : ChangeResourceRecordSetsInput → Option GoError

/-- The state of a run: the two package-level variables, the trace so far and
the number of provider queries of each kind made so far. -/
structure St where
  myInstanceID : String
  myDomainZone : String
  trace : List Event
  statusCalls : Nat
  instancesCalls : Nat
  deriving DecidableEq, Repr

/-- The state at process start: Go zero values, nothing done yet. -/
def St.init : St :=
  { myInstanceID := "", myDomainZone := "", trace := [], statusCalls := 0, instancesCalls := 0 }

/-- How a piece of the program ends: it returns a value, it panics, or it is
still in a polling loop when the fuel is spent. -/
inductive Res (α : Type) where
  | ret (a : α) (s : St)
  | panic (msg : String) (s : St)
  | polling (s : St)
  deriving DecidableEq, Repr

/-- The state in which a piece of the program ended. -/
def Res.state {α : Type} : Res α → St
  | .ret _ s => s
  | .panic _ s => s
  | .polling s => s

/-- The value a piece of the program returned, if it returned. -/
def Res.value {α : Type} : Res α → Option α
  | .ret a _ => some a
  | .panic _ _ => none
  | .polling _ => none

/-- A piece of the program: it runs from a state and ends in a `Res`. -/
def Prog (α : Type) : Type := St → Res α

/-- Sequencing: the second piece runs only when the first one returns. -/
def Prog.bind {α β : Type} (m : Prog α) (f : α → Prog β) : Prog β := fun s =>
  match m s with
  | .ret a s1 => f a s1
  | .panic msg s1 => .panic msg s1
  | .polling s1 => .polling s1

instance : Monad Prog where
  pure a := fun s => .ret a s
  bind := Prog.bind

/-- Append one event to the trace. -/
def emit (e : Event) : Prog Unit := fun s =>
  .ret () { s with trace := s.trace ++ [e] }

/-- The calls `fmt.Println` and `fmt.Printf` with the line already formatted. -/
def println (line : String) : Prog Unit := emit (.println line)

/-- Go `panic`. -/
def goPanic {α : Type} (msg : String) : Prog α := fun s => .panic msg s

/-- Read the state. -/
def getSt : Prog St := fun s => .ret s s

/-- The message of the runtime panic on dereferencing a nil pointer. -/
def nilDeref : String :=
  "runtime error: invalid memory address or nil pointer dereference"

/-- The SDK constant `ec2.InstanceStateNameRunning`. -/
def InstanceStateNameRunning : String := "running"

/-- The SDK constant `ec2.InstanceStateNameStopped`. -/
def InstanceStateNameStopped : String := "stopped"

/-- The SDK constant `route53.ErrCodeNoSuchHostedZone`. -/
def ErrCodeNoSuchHostedZone : String := "NoSuchHostedZone"

/-- The SDK constant `route53.ErrCodeNoSuchHealthCheck`. -/
def ErrCodeNoSuchHealthCheck : String := "NoSuchHealthCheck"

/-- The SDK constant `route53.ErrCodeInvalidChangeBatch`. -/
def ErrCodeInvalidChangeBatch : String := "InvalidChangeBatch"

/-- The SDK constant `route53.ErrCodeInvalidInput`. -/
def ErrCodeInvalidInput : String := "InvalidInput"

/-- The SDK constant `route53.ErrCodePriorRequestNotComplete`. -/
def ErrCodePriorRequestNotComplete : String := "PriorRequestNotComplete"

/-- Go's order `<` on strings, lexicographic on the characters' code points
(which orders UTF-8 strings as their bytes do). -/
def stringLess : List Char → List Char → Bool
  | [], [] => false
  | [], _ :: _ => true
  | _ :: _, [] => false
  | x :: xs, y :: ys =>
    if x.toNat < y.toNat then true
    else if y.toNat < x.toNat then false
    else stringLess xs ys

/-- Go `strings.Compare`: 0 when equal, -1 when `a < b`, +1 otherwise. -/
def stringsCompare (a b : String) : Int :=
  if a = b then 0 else if stringLess a.data b.data then -1 else 1

/-- `flag.String(name, value, usage)` defines a string flag and returns the
address of a variable initialised to the default `value`; only `flag.Parse`
stores a command-line value there.  This is the content of the variable. -/
def flagString (_name value _usage : String) : String := value

/-! ## The functions of the program -/

/-- The function `initOptions` (source lines 30-52). -/
def initOptions (env : Env) (filename : String) : Prog Bool := fun s =>
  let s1 := { s with trace := s.trace ++ [Event.readFile filename] }
  match env.readFile filename with
  | .error errFile => .panic errFile s1
  | .ok file =>
    if !env.jsonValid file then
      .panic "Error: invalid global options file" s1
    else
      match env.jsonUnmarshal file with
      | .error errJson => .panic errJson s1
      | .ok options =>
        .ret true { s1 with myInstanceID := options.InstanceID,
                            myDomainZone := options.DomainZoneID }

/-- The request that `checkForInstanceState` builds (source lines 56-70). -/
def statusInput (instanceID : String) : DescribeInstanceStatusInput :=
  { Filters := [{ Name := "availability-zone", Values := ["us-east-2c"] }],
    IncludeAllInstances := true,
    InstanceIds := [instanceID] }

/-- The loop of `checkForInstanceState` over the status records (source lines
81-88): `.error` is the panic of a nil dereference. -/
def scanStatuses (instanceID : String) : List InstanceStatus → Except String String
  | [] => .ok "Unknown state"
  | val :: rest =>
    match val.InstanceId with
    | none => .error nilDeref
    | some valId =>
      if stringsCompare valId instanceID == 0 then
        match val.InstanceState with
        | none => .error nilDeref
        | some st =>
          match st.Name with
          | none => .error nilDeref
          | some name => .ok name
      else scanStatuses instanceID rest

/-- The function `checkForInstanceState` (source lines 54-89). -/
def checkForInstanceState (env : Env) (instanceID : String) : Prog String := fun s =>
  let inputMyEC2 := statusInput instanceID
  let s1 := { s with trace := s.trace ++ [Event.describeInstanceStatus inputMyEC2],
                     statusCalls := s.statusCalls + 1 }
  match env.describeInstanceStatus s.statusCalls inputMyEC2 with
  | .error err =>
    .ret "Error" { s1 with trace := s1.trace ++
      [Event.println "Error on receiving status of instance", Event.println err] }
  | .ok resStatusMyEC2 =>
    match scanStatuses instanceID resStatusMyEC2.InstanceStatuses with
    | .ok name => .ret name s1
    | .error msg => .panic msg s1

/-- The inner loop of `getInstancePublicIP` over the instances of one reservation
(source lines 102-106): `.ok none` when the loop ends without returning. -/
def scanInstances (instanceID : String) : List Instance → Except String (Option String)
  | [] => .ok none
  | valIns :: rest =>
    match valIns.InstanceId with
    | none => .error nilDeref
    | some valId =>
      if stringsCompare valId instanceID == 0 then
        match valIns.PublicIpAddress with
        | none => .error nilDeref
        | some ip => .ok (some ip)
      else scanInstances instanceID rest

/-- The outer loop of `getInstancePublicIP` over the reservations (source lines 101-107). -/
def scanReservations (instanceID : String) : List Reservation → Except String (Option String)
  | [] => .ok none
  | valRes :: rest =>
    match scanInstances instanceID valRes.Instances with
    | .error msg => .error msg
    | .ok (some ip) => .ok (some ip)
    | .ok none => scanReservations instanceID rest

/-- The function `getInstancePublicIP` (source lines 91-110).  The request names the
package-level `myInstanceID`; the error of the query is discarded and its
output scanned.  The second component is the returned `error`, `none` for nil. -/
def getInstancePublicIP (env : Env) (instanceID : String) : Prog (String × Option String) :=
  fun s =>
  let inputMyEC2 : DescribeInstancesInput := { InstanceIds := [s.myInstanceID] }
  let s1 := { s with trace := s.trace ++ [Event.describeInstances inputMyEC2],
                     instancesCalls := s.instancesCalls + 1 }
  let resMyInstance := env.describeInstances s.instancesCalls inputMyEC2
  match scanReservations instanceID resMyInstance.Reservations with
  | .error msg => .panic msg s1
  | .ok (some ip) => .ret (ip, none) s1
  | .ok none => .ret ("Unknown", some "Unknown IP address") s1

/-- The two polling loops of `main` (source lines 158-161 and 239-242), which
differ in the target state only: probe; while the probed state is not the
target, print it, sleep 5 seconds and probe again.  `fuel` bounds the number of
probes. -/
def pollUntil (env : Env) (target : String) : Nat → Prog Unit
  | 0 => fun s => .polling s
  | fuel + 1 => do
    let s ← getSt
    let currentInstanceState ← checkForInstanceState env s.myInstanceID
    if currentInstanceState != target then do
      println ("Current status = " ++ currentInstanceState ++ ", waiting...")
      emit (.sleep 5)
      pollUntil env target fuel
    else
      pure ()

/-- The request `inputDomains` that the start branch builds (source lines 176-196). -/
def inputDomains (publicIP myDomainZone : String) : ChangeResourceRecordSetsInput :=
  { ChangeBatch :=
      { Changes :=
          [{ Action := "UPSERT",
             ResourceRecordSet :=
               { Name := "proxy.vorotyntsev.name",
                 ResourceRecords := [{ Value := publicIP }],
                 TTL := 900,
                 RecordType := "A" } }],
        Comment := "Test record" },
    HostedZoneId := myDomainZone }

/-- The report on the result of the DNS call (source lines 199-222). -/
def reportChange (err : Option GoError) (publicIP : String) : Prog Unit :=
  match err with
  | some (.awserr code text) =>
    if code = ErrCodeNoSuchHostedZone then println (ErrCodeNoSuchHostedZone ++ " " ++ text)
    else if code = ErrCodeNoSuchHealthCheck then
      println (ErrCodeNoSuchHealthCheck ++ " " ++ text)
    else if code = ErrCodeInvalidChangeBatch then
      println (ErrCodeInvalidChangeBatch ++ " " ++ text)
    else if code = ErrCodeInvalidInput then println (ErrCodeInvalidInput ++ " " ++ text)
    else if code = ErrCodePriorRequestNotComplete then
      println (ErrCodePriorRequestNotComplete ++ " " ++ text)
    else println text
  | some (.other text) => println text
  | none => println ("Record in domain updated to " ++ publicIP)

/-- The `case "status"` branch of `main` (source lines 134-139). -/
def statusBranch (env : Env) (currentInstanceState : String) : Prog Unit :=
  if stringsCompare currentInstanceState InstanceStateNameRunning == 0 then do
    let s ← getSt
    let (currentIP, _) ← getInstancePublicIP env s.myInstanceID
    println ("Instance is running, current IP = " ++ currentIP ++ ".")
  else
    pure ()

/-- The start branch from the line `Instance has been started` on (source lines
163-222): look the public address up; on an error print it and return,
otherwise submit the DNS change and report its result. -/
def startTail (env : Env) : Prog Unit := do
  println "Instance has been started"
  let s ← getSt
  let (publicIP, errIP) ← getInstancePublicIP env s.myInstanceID
  match errIP with
  | some msg => println msg
  | none => do
    println ("Instance address = " ++ publicIP)
    let input := inputDomains publicIP s.myDomainZone
    emit (.changeResourceRecordSets input)
    reportChange (env.changeResourceRecordSets input) publicIP

/-- The `case "start"` branch of `main` (source lines 140-222). -/
def startBranch (env : Env) (fuel : Nat) (currentInstanceState : String) : Prog Unit :=
  if stringsCompare currentInstanceState InstanceStateNameRunning == 0 then do
    let s ← getSt
    let (currentIP, _) ← getInstancePublicIP env s.myInstanceID
    println ("Instance is running, current IP = " ++ currentIP ++ ". Program exited.")
  else do
    let needStart := stringsCompare currentInstanceState InstanceStateNameStopped == 0
    if needStart then do
      println "Trying to start instance"
      let s ← getSt
      emit (.startInstances [s.myInstanceID])
      pollUntil env InstanceStateNameRunning fuel
    else
      pure ()
    startTail env

/-- The `case "stop"` branch of `main` (source lines 223-244). -/
def stopBranch (env : Env) (fuel : Nat) (currentInstanceState : String) : Prog Unit :=
  if stringsCompare currentInstanceState InstanceStateNameRunning != 0 then
    println "Instance is not running. Program exited."
  else do
    let needStop := stringsCompare currentInstanceState InstanceStateNameRunning == 0
    if needStop then do
      println "Trying to stop instance"
      let s ← getSt
      emit (.stopInstances [s.myInstanceID])
      pollUntil env InstanceStateNameStopped fuel
    else
      pure ()
    println "Instance has been stopped"

/-- The `switch *cmdType` of `main` (source lines 133-245); no case, no action. -/
def mainSwitch (env : Env) (fuel : Nat) (cmdType currentInstanceState : String) : Prog Unit :=
  if cmdType = "status" then statusBranch env currentInstanceState
  else if cmdType = "start" then startBranch env fuel currentInstanceState
  else if cmdType = "stop" then stopBranch env fuel currentInstanceState
  else pure ()

/-- The body of `main` after the two flag definitions (source lines 118-245). -/
def mainBody (env : Env) (fuel : Nat) (fileOptions cmdType : String) : Prog Unit := do
  let _ ← initOptions env fileOptions
  match env.newSession "us-east-2" with
  | .error msg => goPanic msg
  | .ok () => do
    emit (.newSession "us-east-2")
    println "Session established."
    let s ← getSt
    let currentInstanceState ← checkForInstanceState env s.myInstanceID
    println ("Current state is " ++ currentInstanceState)
    mainSwitch env fuel cmdType currentInstanceState

/-- The function `main` (source lines 112-246) run on the command-line
arguments `osArgs`.  The two flags are defined and read; `main` has no call of
`flag.Parse`, so nothing reads `osArgs`. -/
def main (_osArgs : List String) (env : Env) (fuel : Nat) : Prog Unit :=
  let fileOptions := flagString "ini" "EC2Commands.json" "json file name with options"
  let cmdType := flagString "cmd" "status" "command: start or stop"
  mainBody env fuel fileOptions cmdType

/-! ## Vocabulary of the statements -/

/-- Whether an event is a printed line. -/
def Event.isPrintln : Event → Bool
  | .println _ => true
  | _ => false

/-- The trace without its printed lines: the file, session and provider
interactions and the waits, in order. -/
def effects (t : List Event) : List Event := t.filter fun e => !e.isPrintln

/-- The state name that the k-th status probe for `instanceID` returns, `none`
when that probe panics: `checkForInstanceState` run with `k` earlier probes. -/
def probeResult (env : Env) (k : Nat) (instanceID : String) : Option String :=
  (checkForInstanceState env instanceID { St.init with statusCalls := k }).value

/-- The status probe as an event. -/
def probeEvent (instanceID : String) : Event :=
  .describeInstanceStatus (statusInput instanceID)

/-- The public-address lookup as an event. -/
def lookupEvent (myInstanceID : String) : Event :=
  .describeInstances { InstanceIds := [myInstanceID] }

/-- What the scan of `getInstancePublicIP` finds in the answer to the k-th
describe-instances query of a run whose instance identifier is `instanceID`. -/
def lookupResult (env : Env) (k : Nat) (instanceID : String) : Except String (Option String) :=
  scanReservations instanceID (env.describeInstances k { InstanceIds := [instanceID] }).Reservations

/-- The state name carried by a status record, when it carries one. -/
def InstanceStatus.stateName (r : InstanceStatus) : Option String :=
  match r.InstanceState with
  | some st => st.Name
  | none => none

/-- The effects of `n` rounds of a polling loop that did not see its target:
a probe, then a wait of 5 seconds, `n` times. -/
def pollRounds (instanceID : String) : Nat → List Event
  | 0 => []
  | n + 1 => probeEvent instanceID :: Event.sleep 5 :: pollRounds instanceID n

/-! ## Stub environments for the concrete runs -/

/-- The text of a well-formed options file for instance `i-abc123` and zone `Z123ABC`. -/
def sampleOptions : String :=
  "\x7b\"EC2InstanceID\": \"i-abc123\", \"DomainZoneID\": \"Z123ABC\"\x7d"

/-- The same options file cut off in the middle of a value. -/
def truncatedOptions : String :=
  "\x7b\"EC2InstanceID\": \"i-abc"

/-- The answer to a status query: one record, the instance in state `name`. -/
def statusAnswer (instanceID name : String) : Except String DescribeInstanceStatusOutput :=
  .ok { InstanceStatuses :=
          [{ InstanceId := some instanceID, InstanceState := some { Name := some name } }] }

/-- The answer to a status query with no record at all. -/
def emptyStatusAnswer : Except String DescribeInstanceStatusOutput :=
  .ok { InstanceStatuses := [] }

/-- The answer to a describe-instances query: one reservation with one instance. -/
def instancesAnswer (instanceID : String) (address : Option String) : DescribeInstancesOutput :=
  { Reservations :=
      [{ Instances := [{ InstanceId := some instanceID, PublicIpAddress := address }] }] }

/-- A stub environment.  The file `EC2Commands.json` holds `file`, which is valid
JSON exactly when it is `sampleOptions`; the k-th status query gets the k-th
element of `probes` (the query fails when there is none); every
describe-instances query gets `lookup`; the DNS call succeeds. -/
def stubEnv (file : String) (probes : List (Except String DescribeInstanceStatusOutput))
    (lookup : DescribeInstancesOutput) : Env :=
  { readFile := fun filename =>
      if filename = "EC2Commands.json" then .ok file
      else .error "open: no such file or directory",
    jsonValid := fun text => text == sampleOptions,
    jsonUnmarshal := fun text =>
      if text = sampleOptions then .ok { InstanceID := "i-abc123", DomainZoneID := "Z123ABC" }
      else .error "unexpected end of JSON input",
    newSession := fun _ => .ok (),
    describeInstanceStatus := fun k _ => probes.getD k (.error "RequestError: send request failed"),
    describeInstances := fun _ _ => lookup,
    changeResourceRecordSets := fun _ => none }

/-- The state of a run with the sample options right after the initial probe
returned `currentInstanceState`. -/
def afterProbe (currentInstanceState : String) : St :=
  { myInstanceID := "i-abc123",
    myDomainZone := "Z123ABC",
    trace := [.readFile "EC2Commands.json", .newSession "us-east-2",
              .println "Session established.", probeEvent "i-abc123",
              .println ("Current state is " ++ currentInstanceState)],
    statusCalls := 1,
    instancesCalls := 0 }


/-! ## Lemmas on the pieces of the program -/

@[simp] theorem stringsCompare_beq_zero (a b : String) :
    (stringsCompare a b == 0) = decide (a = b) := by
  unfold stringsCompare; split_ifs <;> simp_all

@[simp] theorem stringsCompare_bne_zero (a b : String) :
    (stringsCompare a b != 0) = !decide (a = b) := by
  unfold stringsCompare; split_ifs <;> simp_all

@[simp] theorem effects_nil : effects [] = [] := rfl

@[simp] theorem effects_append (t u : List Event) :
    effects (t ++ u) = effects t ++ effects u := by
  simp [effects]

@[simp] theorem effects_println (line : String) (t : List Event) :
    effects (Event.println line :: t) = effects t := by
  simp [effects, Event.isPrintln]

@[simp] theorem effects_probeEvent (instanceID : String) (t : List Event) :
    effects (probeEvent instanceID :: t) = probeEvent instanceID :: effects t := by
  simp [effects, Event.isPrintln, probeEvent]

@[simp] theorem effects_sleep (n : Nat) (t : List Event) :
    effects (Event.sleep n :: t) = Event.sleep n :: effects t := by
  simp [effects, Event.isPrintln]

@[simp] theorem effects_lookupEvent (instanceID : String) (t : List Event) :
    effects (lookupEvent instanceID :: t) = lookupEvent instanceID :: effects t := by
  simp [effects, Event.isPrintln, lookupEvent]

@[simp] theorem effects_startInstances (ids : List String) (t : List Event) :
    effects (Event.startInstances ids :: t) = Event.startInstances ids :: effects t := by
  simp [effects, Event.isPrintln]

@[simp] theorem effects_stopInstances (ids : List String) (t : List Event) :
    effects (Event.stopInstances ids :: t) = Event.stopInstances ids :: effects t := by
  simp [effects, Event.isPrintln]

@[simp] theorem effects_changeResourceRecordSets (input : ChangeResourceRecordSetsInput)
    (t : List Event) :
    effects (Event.changeResourceRecordSets input :: t) =
      Event.changeResourceRecordSets input :: effects t := by
  simp [effects, Event.isPrintln]

theorem mem_effects (e : Event) (t : List Event) :
    e ∈ effects t ↔ e ∈ t ∧ e.isPrintln = false := by
  simp [effects]

/-- One probe: it returns what `probeResult` says, adds the probe to the trace
(and printed lines only), and counts one more status query; or it panics, where
`probeResult` is `none`. -/
theorem checkForInstanceState_cases (env : Env) (instanceID : String) (s : St) :
    (∃ x prints, checkForInstanceState env instanceID s =
        .ret x { s with trace := s.trace ++ probeEvent instanceID :: prints,
                        statusCalls := s.statusCalls + 1 } ∧
      probeResult env s.statusCalls instanceID = some x ∧ effects prints = []) ∨
    (∃ msg, checkForInstanceState env instanceID s =
        .panic msg { s with trace := s.trace ++ [probeEvent instanceID],
                            statusCalls := s.statusCalls + 1 } ∧
      probeResult env s.statusCalls instanceID = none) := by
  unfold probeResult checkForInstanceState
  simp only [St.init, probeEvent]
  cases env.describeInstanceStatus s.statusCalls (statusInput instanceID) with
  | error err =>
    left
    exact ⟨"Error",
      [.println "Error on receiving status of instance", .println err],
      by simp, by simp [Res.value], by simp⟩
  | ok res =>
    cases h : scanStatuses instanceID res.InstanceStatuses with
    | ok name =>
      left
      exact ⟨name, [], by simp [h], by simp [h, Res.value], by simp⟩
    | error msg =>
      right
      exact ⟨msg, by simp [h], by simp [h, Res.value]⟩

/-- One iteration of a polling loop. -/
theorem pollUntil_succ (env : Env) (target : String) (fuel : Nat) (s : St) :
    pollUntil env target (fuel + 1) s =
      match checkForInstanceState env s.myInstanceID s with
      | .ret x s1 =>
        if x = target then .ret () s1
        else pollUntil env target fuel
          { s1 with trace := s1.trace ++
              [.println ("Current status = " ++ x ++ ", waiting..."), .sleep 5] }
      | .panic msg s1 => .panic msg s1
      | .polling s1 => .polling s1 := by
  simp only [pollUntil, bind, Prog.bind, getSt]
  cases h : checkForInstanceState env s.myInstanceID s with
  | ret x s1 =>
    by_cases hx : x = target
    · simp [hx, pure]
    · simp [hx, println, emit, Prog.bind]
  | panic msg s1 => simp
  | polling s1 => simp

/-- A polling loop whose first `n` probes miss the target and whose next probe
hits it returns after `n` rounds and one more probe. -/
theorem pollUntil_converges (env : Env) (target : String) :
    ∀ (n fuel : Nat) (s : St),
      (∀ i, i < n → ∃ x, probeResult env (s.statusCalls + i) s.myInstanceID = some x ∧
        x ≠ target) →
      probeResult env (s.statusCalls + n) s.myInstanceID = some target →
      n < fuel →
      ∃ s1, pollUntil env target fuel s = .ret () s1 ∧
        effects s1.trace = effects s.trace ++ pollRounds s.myInstanceID n ++
          [probeEvent s.myInstanceID] ∧
        s1.myInstanceID = s.myInstanceID ∧ s1.myDomainZone = s.myDomainZone ∧
        s1.statusCalls = s.statusCalls + n + 1 ∧ s1.instancesCalls = s.instancesCalls := by
  intro n
  induction n with
  | zero =>
    intro fuel s _ hlast hfuel
    obtain ⟨f, rfl⟩ : ∃ f, fuel = f + 1 := ⟨fuel - 1, by omega⟩
    rw [pollUntil_succ]
    rcases checkForInstanceState_cases env s.myInstanceID s with
      ⟨x, prints, hret, hres, hpr⟩ | ⟨msg, _, hres⟩
    · simp only [Nat.add_zero] at hlast
      rw [hres] at hlast
      cases hlast
      rw [hret]
      simp [pollRounds, hpr]
    · simp only [Nat.add_zero] at hlast
      rw [hres] at hlast
      cases hlast
  | succ n ih =>
    intro fuel s hpre hlast hfuel
    obtain ⟨f, rfl⟩ : ∃ f, fuel = f + 1 := ⟨fuel - 1, by omega⟩
    rw [pollUntil_succ]
    obtain ⟨x0, hx0, hne⟩ := hpre 0 (by omega)
    simp only [Nat.add_zero] at hx0
    rcases checkForInstanceState_cases env s.myInstanceID s with
      ⟨x, prints, hret, hres, hpr⟩ | ⟨msg, _, hres⟩
    · have hxx : x = x0 := by
        rw [hres] at hx0
        exact Option.some.inj hx0
      subst hxx
      rw [hret]
      simp only [hne, if_false]
      obtain ⟨s1, h1, h2, h3, h4, h5, h6⟩ := ih f
        { s with trace := s.trace ++ probeEvent s.myInstanceID :: prints ++
                   [.println ("Current status = " ++ x ++ ", waiting..."), .sleep 5],
                 statusCalls := s.statusCalls + 1 }
        (by
          intro i hi
          have := hpre (i + 1) (by omega)
          simpa [Nat.add_assoc, Nat.add_comm 1 i] using this)
        (by simpa [Nat.add_assoc, Nat.add_comm 1 n] using hlast)
        (by omega)
      refine ⟨s1, h1, ?_, h3, h4, ?_, h6⟩
      · rw [h2]
        simp [pollRounds, hpr]
      · rw [h5]
        simp
        omega
    · rw [hres] at hx0
      cases hx0


/-- Whatever the provider answers, a polling loop only probes, prints and
waits, leaves the configuration and the lookup count alone, and returns only
right after a probe that returned the target. -/
theorem pollUntil_frame (env : Env) (target : String) :
    ∀ (fuel : Nat) (s : St), ∃ new,
      (pollUntil env target fuel s).state.trace = s.trace ++ new ∧
      (∀ e ∈ effects new, e = probeEvent s.myInstanceID ∨ e = Event.sleep 5) ∧
      (pollUntil env target fuel s).state.myInstanceID = s.myInstanceID ∧
      (pollUntil env target fuel s).state.myDomainZone = s.myDomainZone ∧
      (pollUntil env target fuel s).state.instancesCalls = s.instancesCalls ∧
      (∀ s1, pollUntil env target fuel s = .ret () s1 →
        s.statusCalls < s1.statusCalls ∧
        probeResult env (s1.statusCalls - 1) s.myInstanceID = some target) := by
  intro fuel
  induction fuel with
  | zero =>
    intro s
    exact ⟨[], by simp [pollUntil, Res.state], by simp, rfl, rfl, rfl,
      by intro s1 h; simp [pollUntil] at h⟩
  | succ f ih =>
    intro s
    rw [pollUntil_succ]
    rcases checkForInstanceState_cases env s.myInstanceID s with
      ⟨x, prints, hret, hres, hpr⟩ | ⟨msg, hpanic, hres⟩
    · rw [hret]
      by_cases hx : x = target
      · subst hx
        simp only [if_true]
        refine ⟨probeEvent s.myInstanceID :: prints, by simp [Res.state], ?_, rfl, rfl, rfl, ?_⟩
        · simp [hpr]
        · intro s1 h
          cases h
          simpa using hres
      · simp only [hx, if_false]
        obtain ⟨new, h1, h2, h3, h4, h5, h6⟩ := ih
          { s with trace := s.trace ++ probeEvent s.myInstanceID :: prints ++
                     [.println ("Current status = " ++ x ++ ", waiting..."), .sleep 5],
                   statusCalls := s.statusCalls + 1 }
        refine ⟨probeEvent s.myInstanceID :: prints ++
            [.println ("Current status = " ++ x ++ ", waiting..."), .sleep 5] ++ new,
          by rw [h1]; simp, ?_, h3, h4, h5, ?_⟩
        · intro e he
          simp [hpr] at he
          rcases he with he | he | he
          · exact Or.inl he
          · exact Or.inr he
          · exact h2 e he
        · intro s1 h
          have := h6 s1 h
          simp only at this
          exact ⟨by omega, this.2⟩
    · rw [hpanic]
      exact ⟨[probeEvent s.myInstanceID], by simp [Res.state], by simp, rfl, rfl, rfl,
        by intro s1 h; simp at h⟩

/-- A polling loop whose every probe misses the target is still polling
whatever the fuel. -/
theorem pollUntil_never (env : Env) (target : String)
    (h : ∀ k instanceID, ∃ x, probeResult env k instanceID = some x ∧ x ≠ target) :
    ∀ (fuel : Nat) (s : St), ∃ s1, pollUntil env target fuel s = .polling s1 := by
  intro fuel
  induction fuel with
  | zero => intro s; exact ⟨s, rfl⟩
  | succ f ih =>
    intro s
    rw [pollUntil_succ]
    obtain ⟨x0, hx0, hne⟩ := h s.statusCalls s.myInstanceID
    rcases checkForInstanceState_cases env s.myInstanceID s with
      ⟨x, prints, hret, hres, _⟩ | ⟨msg, _, hres⟩
    · have hxx : x = x0 := by
        rw [hres] at hx0
        exact Option.some.inj hx0
      subst hxx
      rw [hret]
      simp only [hne, if_false]
      exact ih _
    · rw [hres] at hx0
      cases hx0

/-- The report on the DNS call prints one line and does nothing else. -/
theorem reportChange_eq (err : Option GoError) (publicIP : String) (s : St) :
    ∃ line, reportChange err publicIP s =
      .ret () { s with trace := s.trace ++ [.println line] } := by
  unfold reportChange
  split
  · split_ifs <;> exact ⟨_, rfl⟩
  · exact ⟨_, rfl⟩
  · exact ⟨_, rfl⟩

/-- The public-address lookup, by what its scan finds. -/
theorem getInstancePublicIP_eq (env : Env) (s : St) :
    getInstancePublicIP env s.myInstanceID s =
      match lookupResult env s.instancesCalls s.myInstanceID with
      | .error msg => .panic msg
          { s with trace := s.trace ++ [lookupEvent s.myInstanceID],
                   instancesCalls := s.instancesCalls + 1 }
      | .ok (some ip) => .ret (ip, none)
          { s with trace := s.trace ++ [lookupEvent s.myInstanceID],
                   instancesCalls := s.instancesCalls + 1 }
      | .ok none => .ret ("Unknown", some "Unknown IP address")
          { s with trace := s.trace ++ [lookupEvent s.myInstanceID],
                   instancesCalls := s.instancesCalls + 1 } := by
  unfold getInstancePublicIP lookupResult lookupEvent
  rfl

/-- The tail of the start branch, by what the lookup finds. -/
theorem startTail_eq (env : Env) (s : St) :
    ∃ line, startTail env s =
      match lookupResult env s.instancesCalls s.myInstanceID with
      | .error msg => .panic msg
          { s with trace := s.trace ++
                     [.println "Instance has been started", lookupEvent s.myInstanceID],
                   instancesCalls := s.instancesCalls + 1 }
      | .ok (some ip) => .ret ()
          { s with trace := s.trace ++
                     [.println "Instance has been started", lookupEvent s.myInstanceID,
                      .println ("Instance address = " ++ ip),
                      .changeResourceRecordSets (inputDomains ip s.myDomainZone),
                      .println line],
                   instancesCalls := s.instancesCalls + 1 }
      | .ok none => .ret ()
          { s with trace := s.trace ++
                     [.println "Instance has been started", lookupEvent s.myInstanceID,
                      .println "Unknown IP address"],
                   instancesCalls := s.instancesCalls + 1 } := by
  have hget := getInstancePublicIP_eq env
    { s with trace := s.trace ++ [.println "Instance has been started"] }
  simp only at hget
  cases hl : lookupResult env s.instancesCalls s.myInstanceID with
  | error msg =>
    refine ⟨"", ?_⟩
    simp only [startTail, bind, Prog.bind, println, emit, getSt, hget, hl]
    simp
  | ok found =>
    cases found with
    | none =>
      refine ⟨"", ?_⟩
      simp only [startTail, bind, Prog.bind, println, emit, getSt, hget, hl]
      simp
    | some ip =>
      obtain ⟨line, hline⟩ := reportChange_eq
        (env.changeResourceRecordSets (inputDomains ip s.myDomainZone)) ip
        { s with trace := s.trace ++
                   [.println "Instance has been started", lookupEvent s.myInstanceID,
                    .println ("Instance address = " ++ ip),
                    .changeResourceRecordSets (inputDomains ip s.myDomainZone)],
                 instancesCalls := s.instancesCalls + 1 }
      refine ⟨line, ?_⟩
      simp only [startTail, bind, Prog.bind, println, emit, getSt, hget, hl]
      simp only [List.append_assoc, List.singleton_append, List.cons_append, List.nil_append]
      simp only [List.append_assoc, List.singleton_append, List.cons_append,
        List.nil_append] at hline
      rw [hline]


/-- The start branch on an instance that is already running: one lookup, then
the report of what it returned; a panic when the lookup panics. -/
theorem startBranch_running_eq (env : Env) (fuel : Nat) (s : St) :
    startBranch env fuel "running" s =
      match lookupResult env s.instancesCalls s.myInstanceID with
      | .error msg => .panic msg
          { s with trace := s.trace ++ [lookupEvent s.myInstanceID],
                   instancesCalls := s.instancesCalls + 1 }
      | .ok (some ip) => .ret ()
          { s with trace := s.trace ++ [lookupEvent s.myInstanceID,
                     .println ("Instance is running, current IP = " ++ ip ++
                       ". Program exited.")],
                   instancesCalls := s.instancesCalls + 1 }
      | .ok none => .ret ()
          { s with trace := s.trace ++ [lookupEvent s.myInstanceID,
                     .println ("Instance is running, current IP = " ++ "Unknown" ++
                       ". Program exited.")],
                   instancesCalls := s.instancesCalls + 1 } := by
  have hget := getInstancePublicIP_eq env s
  simp only [startBranch, InstanceStateNameRunning, stringsCompare_beq_zero, decide_True,
    if_true, bind, Prog.bind, getSt, hget]
  cases lookupResult env s.instancesCalls s.myInstanceID with
  | error msg => rfl
  | ok found =>
    cases found with
    | none => simp [println, emit]
    | some ip => simp [println, emit]

/-- Where the DNS change requests of the start branch come from: one is
submitted only when the initial state was not `running` and the lookup found
an address, it is the request built from that address and the configured
zone, and when the initial state was `stopped` the last probe before it
returned `running`. -/
theorem startBranch_dns (env : Env) (fuel : Nat) (cur : String) (s : St) :
    ∃ new,
      (startBranch env fuel cur s).state.trace = s.trace ++ new ∧
      ∀ req, Event.changeResourceRecordSets req ∈ new →
        cur ≠ "running" ∧
        (∃ a, lookupResult env s.instancesCalls s.myInstanceID = .ok (some a) ∧
          req = inputDomains a s.myDomainZone) ∧
        (cur = "stopped" →
          s.statusCalls < (startBranch env fuel cur s).state.statusCalls ∧
          probeResult env ((startBranch env fuel cur s).state.statusCalls - 1)
            s.myInstanceID = some "running") := by
  by_cases hrun : cur = "running"
  · subst hrun
    rw [startBranch_running_eq]
    cases lookupResult env s.instancesCalls s.myInstanceID with
    | error msg =>
      exact ⟨[lookupEvent s.myInstanceID], rfl, by simp [lookupEvent]⟩
    | ok found =>
      cases found with
      | none => exact ⟨_, rfl, by simp [lookupEvent]⟩
      | some ip => exact ⟨_, rfl, by simp [lookupEvent]⟩
  · -- the tail, from any state that agrees with `s` on configuration and lookups
    have tail : ∀ (s2 : St) (pre : List Event), s2.trace = s.trace ++ pre →
        (∀ req, Event.changeResourceRecordSets req ∉ pre) →
        s2.myInstanceID = s.myInstanceID → s2.myDomainZone = s.myDomainZone →
        s2.instancesCalls = s.instancesCalls →
        ∃ new, (startTail env s2).state.trace = s.trace ++ new ∧
          (startTail env s2).state.statusCalls = s2.statusCalls ∧
          ∀ req, Event.changeResourceRecordSets req ∈ new →
            ∃ a, lookupResult env s.instancesCalls s.myInstanceID = .ok (some a) ∧
              req = inputDomains a s.myDomainZone := by
      intro s2 pre htr hpre hid hzone hic
      obtain ⟨line, htail⟩ := startTail_eq env s2
      rw [htail, hid, hic, hzone, htr]
      cases hl : lookupResult env s.instancesCalls s.myInstanceID with
      | error msg =>
        refine ⟨pre ++ [.println "Instance has been started", lookupEvent s.myInstanceID],
          by simp [Res.state], rfl, ?_⟩
        intro req hreq
        simp [lookupEvent, hpre] at hreq
      | ok found =>
        cases found with
        | none =>
          refine ⟨pre ++ [.println "Instance has been started", lookupEvent s.myInstanceID,
            .println "Unknown IP address"], by simp [Res.state], rfl, ?_⟩
          intro req hreq
          simp [lookupEvent, hpre] at hreq
        | some ip =>
          refine ⟨pre ++ [.println "Instance has been started", lookupEvent s.myInstanceID,
            .println ("Instance address = " ++ ip),
            .changeResourceRecordSets (inputDomains ip s.myDomainZone),
            .println line], by simp [Res.state], rfl, ?_⟩
          intro req hreq
          simp [lookupEvent, hpre] at hreq
          exact ⟨ip, rfl, hreq⟩
    by_cases hstop : cur = "stopped"
    · subst hstop
      obtain ⟨new1, h1, h2, h3, h4, h5, h6⟩ := pollUntil_frame env "running" fuel
        { s with trace := s.trace ++
            [.println "Trying to start instance", .startInstances [s.myInstanceID]] }
      simp only at h1 h2 h3 h4 h5 h6
      have hnew1 : ∀ req, Event.changeResourceRecordSets req ∉ new1 := by
        intro req hmem
        have := h2 _ ((mem_effects _ _).2 ⟨hmem, rfl⟩)
        simp [probeEvent] at this
      have hstart : startBranch env fuel "stopped" s =
          Prog.bind (pollUntil env "running" fuel) (fun _ => startTail env)
            { s with trace := s.trace ++
                [.println "Trying to start instance", .startInstances [s.myInstanceID]] } := by
        simp [startBranch, InstanceStateNameRunning, InstanceStateNameStopped, bind,
          Prog.bind, println, emit, getSt]
      rw [hstart]
      unfold Prog.bind
      cases hp : pollUntil env "running" fuel
          { s with trace := s.trace ++
              [.println "Trying to start instance", .startInstances [s.myInstanceID]] } with
      | ret u s2 =>
        rw [hp] at h1 h3 h4 h5
        simp only [Res.state] at h1 h3 h4 h5
        obtain ⟨hlt, hlast⟩ := h6 s2 hp
        obtain ⟨new, hn1, hn2, hn3⟩ := tail s2
          ([.println "Trying to start instance", .startInstances [s.myInstanceID]] ++ new1)
          (by rw [h1]; simp)
          (by
            intro req hmem
            simp at hmem
            exact hnew1 req hmem)
          h3 h4 h5
        refine ⟨new, hn1, ?_⟩
        intro req hreq
        refine ⟨by decide, hn3 req hreq, ?_⟩
        intro _
        simp only
        rw [hn2]
        exact ⟨hlt, hlast⟩
      | panic msg s2 =>
        rw [hp] at h1
        simp only [Res.state] at h1
        refine ⟨[.println "Trying to start instance", .startInstances [s.myInstanceID]] ++
          new1, by simp [Res.state, h1], ?_⟩
        intro req hreq
        simp at hreq
        exact absurd hreq (hnew1 req)
      | polling s2 =>
        rw [hp] at h1
        simp only [Res.state] at h1
        refine ⟨[.println "Trying to start instance", .startInstances [s.myInstanceID]] ++
          new1, by simp [Res.state, h1], ?_⟩
        intro req hreq
        simp at hreq
        exact absurd hreq (hnew1 req)
    · have hstart : startBranch env fuel cur s = startTail env s := by
        simp [startBranch, InstanceStateNameRunning, InstanceStateNameStopped, bind,
          Prog.bind, hrun, hstop, pure]
      rw [hstart]
      obtain ⟨new, hn1, _, hn3⟩ := tail s [] (by simp) (by simp) rfl rfl rfl
      refine ⟨new, hn1, ?_⟩
      intro req hreq
      exact ⟨hrun, hn3 req hreq, fun h => absurd h hstop⟩


/-- The scan of the status records returns the state name of a record with the
requested identifier when every record before it carries another identifier
and the record carries its state name. -/
theorem scanStatuses_first_match (instanceID name : String) (r : InstanceStatus)
    (post : List InstanceStatus) (hid : r.InstanceId = some instanceID)
    (hname : r.stateName = some name) :
    ∀ pre : List InstanceStatus,
      (∀ p ∈ pre, ∃ pid, p.InstanceId = some pid ∧ pid ≠ instanceID) →
      scanStatuses instanceID (pre ++ r :: post) = .ok name := by
  intro pre
  induction pre with
  | nil =>
    intro _
    obtain ⟨rid, rstate⟩ := r
    simp only at hid
    subst hid
    cases rstate with
    | none => simp [InstanceStatus.stateName] at hname
    | some st =>
      obtain ⟨stName⟩ := st
      simp only [InstanceStatus.stateName] at hname
      subst hname
      simp [scanStatuses]
  | cons p rest ih =>
    intro hall
    obtain ⟨pid, hpid, hne⟩ := hall p (List.mem_cons_self _ _)
    have hrest := ih (fun q hq => hall q (List.mem_cons_of_mem _ hq))
    simp [scanStatuses, hpid, hne, hrest]

/-- The scan of the status records returns `Unknown state` when every record
carries an identifier other than the requested one. -/
theorem scanStatuses_no_match (instanceID : String) :
    ∀ records : List InstanceStatus,
      (∀ p ∈ records, ∃ pid, p.InstanceId = some pid ∧ pid ≠ instanceID) →
      scanStatuses instanceID records = .ok "Unknown state" := by
  intro records
  induction records with
  | nil => intro _; rfl
  | cons p rest ih =>
    intro hall
    obtain ⟨pid, hpid, hne⟩ := hall p (List.mem_cons_self _ _)
    have hrest := ih (fun q hq => hall q (List.mem_cons_of_mem _ hq))
    simp [scanStatuses, hpid, hne, hrest]

/-- Whenever the scan of the status records returns, it is in one of the two
cases above. -/
theorem scanStatuses_ok_cases (instanceID : String) :
    ∀ (records : List InstanceStatus) (name : String),
      scanStatuses instanceID records = .ok name →
      (∃ pre r post, records = pre ++ r :: post ∧
        (∀ p ∈ pre, ∃ pid, p.InstanceId = some pid ∧ pid ≠ instanceID) ∧
        r.InstanceId = some instanceID ∧ r.stateName = some name) ∨
      ((∀ p ∈ records, ∃ pid, p.InstanceId = some pid ∧ pid ≠ instanceID) ∧
        name = "Unknown state") := by
  intro records
  induction records with
  | nil =>
    intro name h
    right
    simp [scanStatuses] at h
    exact ⟨by simp, h.symm⟩
  | cons p rest ih =>
    intro name h
    obtain ⟨pid, pstate⟩ := p
    cases pid with
    | none => simp [scanStatuses] at h
    | some valId =>
      by_cases hid : valId = instanceID
      · subst hid
        cases pstate with
        | none => simp [scanStatuses] at h
        | some st =>
          obtain ⟨stName⟩ := st
          cases stName with
          | none => simp [scanStatuses] at h
          | some n =>
            simp [scanStatuses] at h
            subst h
            left
            exact ⟨[], _, rest, rfl, by simp, rfl, rfl⟩
      · simp only [scanStatuses, stringsCompare_beq_zero, hid, decide_False] at h
        have h2 : scanStatuses instanceID rest = .ok name := by simpa using h
        rcases ih name h2 with ⟨pre, r, post, hrec, hpre, hr, hn⟩ | ⟨hall, hn⟩
        · left
          refine ⟨_ :: pre, r, post, by rw [hrec]; rfl, ?_, hr, hn⟩
          intro q hq
          rcases List.mem_cons.1 hq with rfl | hq
          · exact ⟨valId, rfl, hid⟩
          · exact hpre q hq
        · right
          refine ⟨?_, hn⟩
          intro q hq
          rcases List.mem_cons.1 hq with rfl | hq
          · exact ⟨valId, rfl, hid⟩
          · exact hall q hq

/-! ## The claims -/

/-- C1 (the code departs from it): the operation `main` performs should be the one
named by `-cmd`.  `main` defines the flags and never parses the command line:
whatever the argument list, it runs with the file `EC2Commands.json` and the
command `status`.  With `-cmd start` and an initial state `stopped` it ends
after the initial probe, having issued no start request; the start branch, had
it been reached, issues one. -/
theorem main_cmd_start_runs_status :
    main ["-cmd", "start"]
        (stubEnv sampleOptions
          [statusAnswer "i-abc123" "stopped", statusAnswer "i-abc123" "running"]
          (instancesAnswer "i-abc123" (some "203.0.113.5")))
        10 St.init = .ret () (afterProbe "stopped") ∧
    Event.startInstances ["i-abc123"] ∉ (afterProbe "stopped").trace ∧
    Event.startInstances ["i-abc123"] ∈
      (mainBody
        (stubEnv sampleOptions
          [statusAnswer "i-abc123" "stopped", statusAnswer "i-abc123" "running"]
          (instancesAnswer "i-abc123" (some "203.0.113.5")))
        10 "EC2Commands.json" "start" St.init).state.trace ∧
    (∀ (osArgs : List String) (env : Env) (fuel : Nat),
      main osArgs env fuel = mainBody env fuel "EC2Commands.json" "status") := by
  refine ⟨by decide!, by decide!, by decide!, ?_⟩
  intro osArgs env fuel
  rfl

/-- C2 (the code departs from it): started on a running instance, the start branch
should report the address of one lookup and exit.  When the running instance
has no public address the lookup dereferences the absent address: the branch
panics after its one lookup and reports nothing.  Whatever the provider
answers, the one lookup is the only effect of the branch besides printed
lines: no start request, no DNS change request, no probe, no wait. -/
theorem start_running_without_address_panics :
    mainBody
        (stubEnv sampleOptions [statusAnswer "i-abc123" "running"]
          (instancesAnswer "i-abc123" none))
        10 "EC2Commands.json" "start" St.init =
      .panic nilDeref
        { afterProbe "running" with
          trace := (afterProbe "running").trace ++ [lookupEvent "i-abc123"],
          instancesCalls := 1 } ∧
    (∀ (env : Env) (fuel : Nat) (s : St),
      effects (startBranch env fuel "running" s).state.trace =
        effects s.trace ++ [lookupEvent s.myInstanceID]) := by
  refine ⟨by decide!, ?_⟩
  intro env fuel s
  rw [startBranch_running_eq]
  cases lookupResult env s.instancesCalls s.myInstanceID with
  | error msg => simp [Res.state]
  | ok found =>
    cases found with
    | none => simp [Res.state]
    | some ip => simp [Res.state]

/-- C3: whatever the initial state other than `running`, the stop branch prints
that the instance is not running and returns: the trace gains that line only
(no stop request, no probe, no wait) and the query counts stay as they were,
whatever the fuel. -/
theorem stop_not_running_is_noop (env : Env) (fuel : Nat) (currentInstanceState : String)
    (s : St) (h : currentInstanceState ≠ "running") :
    stopBranch env fuel currentInstanceState s =
      .ret () { s with trace := s.trace ++
        [.println "Instance is not running. Program exited."] } := by
  simp [stopBranch, InstanceStateNameRunning, h, println, emit]

/-- C3 at the states `stopped`, `pending`, `Error` and `Unknown state`. -/
theorem stop_not_running_is_noop_witness :
    ("stopped" ≠ "running" ∧
      stopBranch (stubEnv sampleOptions [] (instancesAnswer "i-abc123" none)) 0 "stopped"
          (afterProbe "stopped") =
        .ret () { afterProbe "stopped" with trace := (afterProbe "stopped").trace ++
          [.println "Instance is not running. Program exited."] }) ∧
    stopBranch (stubEnv sampleOptions [] (instancesAnswer "i-abc123" none)) 5 "pending"
        (afterProbe "pending") =
      .ret () { afterProbe "pending" with trace := (afterProbe "pending").trace ++
        [.println "Instance is not running. Program exited."] } ∧
    stopBranch (stubEnv sampleOptions [] (instancesAnswer "i-abc123" none)) 5 "Error"
        (afterProbe "Error") =
      .ret () { afterProbe "Error" with trace := (afterProbe "Error").trace ++
        [.println "Instance is not running. Program exited."] } ∧
    stopBranch (stubEnv sampleOptions [] (instancesAnswer "i-abc123" none)) 5 "Unknown state"
        (afterProbe "Unknown state") =
      .ret () { afterProbe "Unknown state" with
        trace := (afterProbe "Unknown state").trace ++
          [.println "Instance is not running. Program exited."] } :=
  ⟨⟨by decide, stop_not_running_is_noop _ 0 "stopped" _ (by decide)⟩,
    stop_not_running_is_noop _ 5 "pending" _ (by decide),
    stop_not_running_is_noop _ 5 "Error" _ (by decide),
    stop_not_running_is_noop _ 5 "Unknown state" _ (by decide)⟩

/-- C4: from the state `stopped`, if the first `n` probes after the start request
return `pending` and the next one `running`, then with fuel for `n + 1` probes
the start branch ends (it returns, or panics inside the lookup) and its
effects are exactly: one start request, `n` rounds of a probe and a wait of 5
seconds, probe `n + 1`, one public-address lookup, and, when the lookup found
an address, one DNS change request: a single `UPSERT` of the `A` record
`proxy.vorotyntsev.name` with TTL 900 whose single value is that address, in
the configured zone; nothing when the lookup found none. -/
theorem start_polling_converges (env : Env) (n fuel : Nat) (s : St)
    (hpending : ∀ i, i < n →
      probeResult env (s.statusCalls + i) s.myInstanceID = some "pending")
    (hrunning : probeResult env (s.statusCalls + n) s.myInstanceID = some "running")
    (hfuel : n < fuel) :
    ∃ s1,
      startBranch env fuel "stopped" s =
        (match lookupResult env s.instancesCalls s.myInstanceID with
         | .error msg => Res.panic msg s1
         | .ok _ => Res.ret () s1) ∧
      effects s1.trace =
        effects s.trace ++ [Event.startInstances [s.myInstanceID]] ++
          pollRounds s.myInstanceID n ++
          [probeEvent s.myInstanceID, lookupEvent s.myInstanceID] ++
          (match lookupResult env s.instancesCalls s.myInstanceID with
           | .ok (some ip) =>
             [Event.changeResourceRecordSets
               { ChangeBatch :=
                   { Changes :=
                       [{ Action := "UPSERT",
                          ResourceRecordSet :=
                            { Name := "proxy.vorotyntsev.name",
                              ResourceRecords := [{ Value := ip }],
                              TTL := 900,
                              RecordType := "A" } }],
                     Comment := "Test record" },
                 HostedZoneId := s.myDomainZone }]
           | _ => []) ∧
      s1.statusCalls = s.statusCalls + n + 1 ∧
      s1.instancesCalls = s.instancesCalls + 1 := by
  obtain ⟨s2, hpoll, htr, hid, hzone, hsc, hic⟩ :=
    pollUntil_converges env "running" n fuel
      { s with trace := s.trace ++
          [.println "Trying to start instance", .startInstances [s.myInstanceID]] }
      (by
        intro i hi
        exact ⟨"pending", hpending i hi, by decide⟩)
      hrunning hfuel
  simp only at htr hid hzone hsc hic
  obtain ⟨line, htail⟩ := startTail_eq env s2
  have hstart : startBranch env fuel "stopped" s = startTail env s2 := by
    simp [startBranch, InstanceStateNameRunning, InstanceStateNameStopped, bind, Prog.bind,
      println, emit, getSt, hpoll]
  rw [hstart, htail, hid, hic, hzone]
  cases hl : lookupResult env s.instancesCalls s.myInstanceID with
  | error msg =>
    refine ⟨_, rfl, ?_, hsc, rfl⟩
    simp [htr, hid]
  | ok found =>
    cases found with
    | none =>
      refine ⟨_, rfl, ?_, hsc, rfl⟩
      simp [htr, hid]
    | some ip =>
      refine ⟨_, rfl, ?_, hsc, rfl⟩
      simp [htr, hid, inputDomains]

/-- C4 at `n = 3` and at `n = 0`, on a provider that reports `pending` three
times (resp. not at all) and then `running`, and whose lookup finds
`203.0.113.5`. -/
theorem start_polling_converges_witness :
    (∃ s1,
      startBranch
          (stubEnv sampleOptions
            [statusAnswer "i-abc123" "stopped", statusAnswer "i-abc123" "pending",
             statusAnswer "i-abc123" "pending", statusAnswer "i-abc123" "pending",
             statusAnswer "i-abc123" "running"]
            (instancesAnswer "i-abc123" (some "203.0.113.5")))
          4 "stopped" (afterProbe "stopped") = Res.ret () s1 ∧
      effects s1.trace =
        effects (afterProbe "stopped").trace ++
          [Event.startInstances ["i-abc123"],
           probeEvent "i-abc123", Event.sleep 5,
           probeEvent "i-abc123", Event.sleep 5,
           probeEvent "i-abc123", Event.sleep 5,
           probeEvent "i-abc123", lookupEvent "i-abc123",
           Event.changeResourceRecordSets
             { ChangeBatch :=
                 { Changes :=
                     [{ Action := "UPSERT",
                        ResourceRecordSet :=
                          { Name := "proxy.vorotyntsev.name",
                            ResourceRecords := [{ Value := "203.0.113.5" }],
                            TTL := 900,
                            RecordType := "A" } }],
                   Comment := "Test record" },
               HostedZoneId := "Z123ABC" }] ∧
      s1.statusCalls = 5 ∧ s1.instancesCalls = 1) ∧
    (∃ s1,
      startBranch
          (stubEnv sampleOptions
            [statusAnswer "i-abc123" "stopped", statusAnswer "i-abc123" "running"]
            (instancesAnswer "i-abc123" (some "203.0.113.5")))
          1 "stopped" (afterProbe "stopped") = Res.ret () s1 ∧
      effects s1.trace =
        effects (afterProbe "stopped").trace ++
          [Event.startInstances ["i-abc123"],
           probeEvent "i-abc123", lookupEvent "i-abc123",
           Event.changeResourceRecordSets
             { ChangeBatch :=
                 { Changes :=
                     [{ Action := "UPSERT",
                        ResourceRecordSet :=
                          { Name := "proxy.vorotyntsev.name",
                            ResourceRecords := [{ Value := "203.0.113.5" }],
                            TTL := 900,
                            RecordType := "A" } }],
                   Comment := "Test record" },
               HostedZoneId := "Z123ABC" }] ∧
      s1.statusCalls = 2 ∧ s1.instancesCalls = 1) := by
  constructor
  · have h := start_polling_converges
      (stubEnv sampleOptions
        [statusAnswer "i-abc123" "stopped", statusAnswer "i-abc123" "pending",
         statusAnswer "i-abc123" "pending", statusAnswer "i-abc123" "pending",
         statusAnswer "i-abc123" "running"]
        (instancesAnswer "i-abc123" (some "203.0.113.5")))
      3 4 (afterProbe "stopped")
      (by
        intro i hi
        interval_cases i <;> decide!)
      (by decide!) (by decide)
    have hl : lookupResult
        (stubEnv sampleOptions
          [statusAnswer "i-abc123" "stopped", statusAnswer "i-abc123" "pending",
           statusAnswer "i-abc123" "pending", statusAnswer "i-abc123" "pending",
           statusAnswer "i-abc123" "running"]
          (instancesAnswer "i-abc123" (some "203.0.113.5")))
        (afterProbe "stopped").instancesCalls (afterProbe "stopped").myInstanceID =
        .ok (some "203.0.113.5") := by
      simp [lookupResult, stubEnv, instancesAnswer, scanReservations, scanInstances, afterProbe]
    rw [hl] at h
    obtain ⟨s1, h1, h2, h3, h4⟩ := h
    exact ⟨s1, h1, by simpa [pollRounds, afterProbe] using h2, h3, h4⟩
  · have h := start_polling_converges
      (stubEnv sampleOptions
        [statusAnswer "i-abc123" "stopped", statusAnswer "i-abc123" "running"]
        (instancesAnswer "i-abc123" (some "203.0.113.5")))
      0 1 (afterProbe "stopped")
      (by
        intro i hi
        omega)
      (by decide!) (by decide)
    have hl : lookupResult
        (stubEnv sampleOptions
          [statusAnswer "i-abc123" "stopped", statusAnswer "i-abc123" "running"]
          (instancesAnswer "i-abc123" (some "203.0.113.5")))
        (afterProbe "stopped").instancesCalls (afterProbe "stopped").myInstanceID =
        .ok (some "203.0.113.5") := by
      simp [lookupResult, stubEnv, instancesAnswer, scanReservations, scanInstances, afterProbe]
    rw [hl] at h
    obtain ⟨s1, h1, h2, h3, h4⟩ := h
    exact ⟨s1, h1, by simpa [pollRounds, afterProbe] using h2, h3, h4⟩

/-- C5: a polling loop ends at a probe exactly when that probe returned the
target name: if it did, the loop returns right after the probe; if it did
not, the loop prints, waits 5 seconds and goes on.  So a provider whose probes
only ever return `Unknown state` or `Error` keeps either loop polling whatever
the fuel; and from the state `running`, if the first `n` probes after the stop
request return something other than `stopped` and the next one `stopped`, the
stop branch returns with exactly one stop request, `n` rounds of a probe and a
wait of 5 seconds, and probe `n + 1`. -/
theorem poll_ends_exactly_on_target :
    (∀ (env : Env) (target : String) (fuel : Nat) (s s1 : St) (x : String),
      checkForInstanceState env s.myInstanceID s = .ret x s1 →
      (x = target → pollUntil env target (fuel + 1) s = .ret () s1) ∧
      (x ≠ target → pollUntil env target (fuel + 1) s =
        pollUntil env target fuel
          { s1 with trace := s1.trace ++
              [.println ("Current status = " ++ x ++ ", waiting..."), .sleep 5] })) ∧
    (∀ (env : Env) (target : String),
      target = InstanceStateNameRunning ∨ target = InstanceStateNameStopped →
      (∀ k instanceID, probeResult env k instanceID = some "Unknown state" ∨
        probeResult env k instanceID = some "Error") →
      ∀ (fuel : Nat) (s : St), ∃ s1, pollUntil env target fuel s = .polling s1) ∧
    (∀ (env : Env) (n fuel : Nat) (s : St),
      (∀ i, i < n → ∃ x,
        probeResult env (s.statusCalls + i) s.myInstanceID = some x ∧ x ≠ "stopped") →
      probeResult env (s.statusCalls + n) s.myInstanceID = some "stopped" →
      n < fuel →
      ∃ s1, stopBranch env fuel "running" s = .ret () s1 ∧
        effects s1.trace =
          effects s.trace ++ [Event.stopInstances [s.myInstanceID]] ++
            pollRounds s.myInstanceID n ++ [probeEvent s.myInstanceID] ∧
        s1.statusCalls = s.statusCalls + n + 1 ∧
        s1.instancesCalls = s.instancesCalls) := by
  refine ⟨?_, ?_, ?_⟩
  · intro env target fuel s s1 x hret
    rw [pollUntil_succ, hret]
    constructor
    · intro hx
      simp [hx]
    · intro hx
      simp [hx]
  · intro env target htarget hprobes
    apply pollUntil_never
    intro k instanceID
    rcases hprobes k instanceID with h | h
    · refine ⟨"Unknown state", h, ?_⟩
      rcases htarget with rfl | rfl <;> decide
    · refine ⟨"Error", h, ?_⟩
      rcases htarget with rfl | rfl <;> decide
  · intro env n fuel s hpre hlast hfuel
    obtain ⟨s2, hpoll, htr, _, _, hsc, hic⟩ :=
      pollUntil_converges env "stopped" n fuel
        { s with trace := s.trace ++
            [.println "Trying to stop instance", .stopInstances [s.myInstanceID]] }
        hpre hlast hfuel
    simp only at htr hsc hic
    refine ⟨{ s2 with trace := s2.trace ++ [.println "Instance has been stopped"] },
      ?_, ?_, hsc, hic⟩
    · simp [stopBranch, InstanceStateNameRunning, InstanceStateNameStopped, bind, Prog.bind,
        println, emit, getSt, hpoll]
    · simp [htr]

/-- C5 on a provider whose probes after the stop request fail (`Error`), return
no record (`Unknown state`), return `stopping` and then `stopped`: three waits;
and on a provider whose every status query fails: the start loop is still
polling after 7 probes. -/
theorem poll_ends_exactly_on_target_witness :
    (∃ s1,
      stopBranch
          (stubEnv sampleOptions
            [statusAnswer "i-abc123" "running", .error "RequestError: send request failed",
             emptyStatusAnswer, statusAnswer "i-abc123" "stopping",
             statusAnswer "i-abc123" "stopped"]
            (instancesAnswer "i-abc123" none))
          4 "running" (afterProbe "running") = .ret () s1 ∧
      effects s1.trace =
        effects (afterProbe "running").trace ++
          [Event.stopInstances ["i-abc123"],
           probeEvent "i-abc123", Event.sleep 5,
           probeEvent "i-abc123", Event.sleep 5,
           probeEvent "i-abc123", Event.sleep 5,
           probeEvent "i-abc123"] ∧
      s1.statusCalls = 5 ∧ s1.instancesCalls = 0) ∧
    (∃ s1,
      pollUntil (stubEnv sampleOptions [] (instancesAnswer "i-abc123" none))
        InstanceStateNameRunning 7 (afterProbe "stopped") = .polling s1) := by
  constructor
  · have h := poll_ends_exactly_on_target.2.2
      (stubEnv sampleOptions
        [statusAnswer "i-abc123" "running", .error "RequestError: send request failed",
         emptyStatusAnswer, statusAnswer "i-abc123" "stopping",
         statusAnswer "i-abc123" "stopped"]
        (instancesAnswer "i-abc123" none))
      3 4 (afterProbe "running")
      (by
        intro i hi
        interval_cases i
        · exact ⟨"Error", by decide!, by decide⟩
        · exact ⟨"Unknown state", by decide!, by decide⟩
        · exact ⟨"stopping", by decide!, by decide⟩)
      (by decide!) (by decide)
    obtain ⟨s1, h1, h2, h3, h4⟩ := h
    exact ⟨s1, h1, by simpa [pollRounds, afterProbe] using h2, h3, h4⟩
  · exact poll_ends_exactly_on_target.2.1
      (stubEnv sampleOptions [] (instancesAnswer "i-abc123" none))
      InstanceStateNameRunning (Or.inl rfl)
      (by
        intro k instanceID
        right
        simp [probeResult, checkForInstanceState, stubEnv, Res.value])
      7 (afterProbe "stopped")

/-- C6: for every address `a` and zone `z` the request `inputDomains a z` has
hosted-zone id `z` and exactly one change, an `UPSERT` of the record
`proxy.vorotyntsev.name` of type `A` with TTL 900 and the single value `a`;
and in every run of the start branch with configured zone `z` whose lookup
finds `a`, every DNS change request submitted is that request. -/
theorem dns_request_shape (a z : String) :
    (inputDomains a z).HostedZoneId = z ∧
    (∃ c, (inputDomains a z).ChangeBatch.Changes = [c] ∧
      c.Action = "UPSERT" ∧
      c.ResourceRecordSet.Name = "proxy.vorotyntsev.name" ∧
      c.ResourceRecordSet.RecordType = "A" ∧
      c.ResourceRecordSet.TTL = 900 ∧
      c.ResourceRecordSet.ResourceRecords = [{ Value := a }]) ∧
    (∀ (env : Env) (fuel : Nat) (cur : String) (s : St),
      s.myDomainZone = z →
      lookupResult env s.instancesCalls s.myInstanceID = .ok (some a) →
      ∃ new, (startBranch env fuel cur s).state.trace = s.trace ++ new ∧
        ∀ req, Event.changeResourceRecordSets req ∈ new → req = inputDomains a z) := by
  refine ⟨rfl, ⟨_, rfl, rfl, rfl, rfl, rfl, rfl⟩, ?_⟩
  intro env fuel cur s hz hl
  obtain ⟨new, h1, h2⟩ := startBranch_dns env fuel cur s
  refine ⟨new, h1, ?_⟩
  intro req hreq
  obtain ⟨_, ⟨b, hb, hreq2⟩, _⟩ := h2 req hreq
  rw [hl] at hb
  cases hb
  rw [hreq2, hz]

/-- C6 at the address `203.0.113.5` and the zone `Z123ABC`: the shape of the
request, and a run of the start branch that submits it. -/
theorem dns_request_shape_witness :
    (inputDomains "203.0.113.5" "Z123ABC").HostedZoneId = "Z123ABC" ∧
    (inputDomains "203.0.113.5" "Z123ABC").ChangeBatch.Changes =
      [{ Action := "UPSERT",
         ResourceRecordSet :=
           { Name := "proxy.vorotyntsev.name",
             ResourceRecords := [{ Value := "203.0.113.5" }],
             TTL := 900,
             RecordType := "A" } }] ∧
    Event.changeResourceRecordSets (inputDomains "203.0.113.5" "Z123ABC") ∈
      (startBranch
        (stubEnv sampleOptions
          [statusAnswer "i-abc123" "stopped", statusAnswer "i-abc123" "running"]
          (instancesAnswer "i-abc123" (some "203.0.113.5")))
        1 "stopped" (afterProbe "stopped")).state.trace ∧
    (∃ new,
      (startBranch
        (stubEnv sampleOptions
          [statusAnswer "i-abc123" "stopped", statusAnswer "i-abc123" "running"]
          (instancesAnswer "i-abc123" (some "203.0.113.5")))
        1 "stopped" (afterProbe "stopped")).state.trace =
        (afterProbe "stopped").trace ++ new ∧
      ∀ req, Event.changeResourceRecordSets req ∈ new →
        req = inputDomains "203.0.113.5" "Z123ABC") :=
  ⟨(dns_request_shape "203.0.113.5" "Z123ABC").1, by decide!, by decide!,
    (dns_request_shape "203.0.113.5" "Z123ABC").2.2 _ 1 "stopped" (afterProbe "stopped") rfl
      (by simp [lookupResult, stubEnv, instancesAnswer, scanReservations, scanInstances,
        afterProbe])⟩

/-- C7 (the code departs from it): `getInstancePublicIP` should return a not-found
error when the matching instance has no public address.  On such an answer it
dereferences the absent address and panics.  It does return the not-found
error when no instance matches, and the address when the match has one. -/
theorem getInstancePublicIP_absent_address_panics :
    getInstancePublicIP
        (stubEnv sampleOptions [] (instancesAnswer "i-abc123" none))
        "i-abc123" (afterProbe "running") =
      .panic nilDeref
        { afterProbe "running" with
          trace := (afterProbe "running").trace ++ [lookupEvent "i-abc123"],
          instancesCalls := 1 } ∧
    getInstancePublicIP
        (stubEnv sampleOptions [] (instancesAnswer "i-000000" (some "198.51.100.7")))
        "i-abc123" (afterProbe "running") =
      .ret ("Unknown", some "Unknown IP address")
        { afterProbe "running" with
          trace := (afterProbe "running").trace ++ [lookupEvent "i-abc123"],
          instancesCalls := 1 } ∧
    getInstancePublicIP
        (stubEnv sampleOptions [] (instancesAnswer "i-abc123" (some "203.0.113.5")))
        "i-abc123" (afterProbe "running") =
      .ret ("203.0.113.5", none)
        { afterProbe "running" with
          trace := (afterProbe "running").trace ++ [lookupEvent "i-abc123"],
          instancesCalls := 1 } := by
  refine ⟨by decide!, by decide!, by decide!⟩

/-- C8 as stated fails: `checkForInstanceState` is not total over the answers of
a successful query.  On a status record without its identifier, and on a
record of the requested instance without its state, it dereferences the
absent field and panics. -/
theorem checkForInstanceState_incomplete_record_panics :
    checkForInstanceState
        (stubEnv sampleOptions
          [.ok { InstanceStatuses :=
            [{ InstanceId := none, InstanceState := some { Name := some "running" } }] }]
          (instancesAnswer "i-abc123" none))
        "i-abc123" St.init =
      .panic nilDeref
        { St.init with trace := [probeEvent "i-abc123"], statusCalls := 1 } ∧
    checkForInstanceState
        (stubEnv sampleOptions
          [.ok { InstanceStatuses :=
            [{ InstanceId := some "i-abc123", InstanceState := none }] }]
          (instancesAnswer "i-abc123" none))
        "i-abc123" St.init =
      .panic nilDeref
        { St.init with trace := [probeEvent "i-abc123"], statusCalls := 1 } := by
  refine ⟨by decide!, by decide!⟩

/-- C8 as amended: `checkForInstanceState` returns `Error` whenever the status
query fails.  When the query succeeds it returns the state name of the first
record whose identifier is the requested one, provided every record before it
carries an identifier and that record carries its state name (the records
after it are not read); and it returns `Unknown state` when every record
carries an identifier and none is the requested one (the empty answer
included).  It returns in no other case. -/
theorem checkForInstanceState_result (env : Env) (instanceID : String) (s : St) :
    (∀ err, env.describeInstanceStatus s.statusCalls (statusInput instanceID) = .error err →
      ∃ s1, checkForInstanceState env instanceID s = .ret "Error" s1) ∧
    (∀ res pre r post name,
      env.describeInstanceStatus s.statusCalls (statusInput instanceID) = .ok res →
      res.InstanceStatuses = pre ++ r :: post →
      (∀ p ∈ pre, ∃ pid, p.InstanceId = some pid ∧ pid ≠ instanceID) →
      r.InstanceId = some instanceID →
      r.stateName = some name →
      ∃ s1, checkForInstanceState env instanceID s = .ret name s1) ∧
    (∀ res, env.describeInstanceStatus s.statusCalls (statusInput instanceID) = .ok res →
      (∀ p ∈ res.InstanceStatuses, ∃ pid, p.InstanceId = some pid ∧ pid ≠ instanceID) →
      ∃ s1, checkForInstanceState env instanceID s = .ret "Unknown state" s1) ∧
    (∀ res name s1,
      env.describeInstanceStatus s.statusCalls (statusInput instanceID) = .ok res →
      checkForInstanceState env instanceID s = .ret name s1 →
      (∃ pre r post, res.InstanceStatuses = pre ++ r :: post ∧
        (∀ p ∈ pre, ∃ pid, p.InstanceId = some pid ∧ pid ≠ instanceID) ∧
        r.InstanceId = some instanceID ∧ r.stateName = some name) ∨
      ((∀ p ∈ res.InstanceStatuses, ∃ pid, p.InstanceId = some pid ∧ pid ≠ instanceID) ∧
        name = "Unknown state")) := by
  refine ⟨?_, ?_, ?_, ?_⟩
  · intro err herr
    simp [checkForInstanceState, herr]
  · intro res pre r post name hres hrec hpre hid hname
    have h1 := scanStatuses_first_match instanceID name r post hid hname pre hpre
    rw [← hrec] at h1
    exact ⟨{ s with trace := s.trace ++ [Event.describeInstanceStatus (statusInput instanceID)],
                    statusCalls := s.statusCalls + 1 },
      by simp only [checkForInstanceState, hres, h1]⟩
  · intro res hres hall
    have h1 := scanStatuses_no_match instanceID res.InstanceStatuses hall
    exact ⟨{ s with trace := s.trace ++ [Event.describeInstanceStatus (statusInput instanceID)],
                    statusCalls := s.statusCalls + 1 },
      by simp only [checkForInstanceState, hres, h1]⟩
  · intro res name s1 hres hret
    apply scanStatuses_ok_cases instanceID res.InstanceStatuses name
    simp only [checkForInstanceState, hres] at hret
    cases hscan : scanStatuses instanceID res.InstanceStatuses with
    | ok n =>
      rw [hscan] at hret
      simp only [Res.ret.injEq] at hret
      rw [hret.1]
    | error msg =>
      rw [hscan] at hret
      cases hret

/-- C8 as amended, on an answer with a record of another instance that lacks its
state, then a `stopped` record of the requested instance, then a record
without identifier (the `stopped` one is returned); on the empty answer; and
on a failed query. -/
theorem checkForInstanceState_result_witness :
    (∃ s1,
      checkForInstanceState
          (stubEnv sampleOptions
            [.ok { InstanceStatuses :=
              [{ InstanceId := some "i-000000", InstanceState := none },
               { InstanceId := some "i-abc123", InstanceState := some { Name := some "stopped" } },
               { InstanceId := none, InstanceState := some { Name := some "pending" } }] }]
            (instancesAnswer "i-abc123" none))
          "i-abc123" St.init = .ret "stopped" s1) ∧
    (∃ s1,
      checkForInstanceState
          (stubEnv sampleOptions [emptyStatusAnswer] (instancesAnswer "i-abc123" none))
          "i-abc123" St.init = .ret "Unknown state" s1) ∧
    (∃ s1,
      checkForInstanceState
          (stubEnv sampleOptions [] (instancesAnswer "i-abc123" none))
          "i-abc123" St.init = .ret "Error" s1) :=
  ⟨(checkForInstanceState_result
      (stubEnv sampleOptions
        [.ok { InstanceStatuses :=
          [{ InstanceId := some "i-000000", InstanceState := none },
           { InstanceId := some "i-abc123", InstanceState := some { Name := some "stopped" } },
           { InstanceId := none, InstanceState := some { Name := some "pending" } }] }]
        (instancesAnswer "i-abc123" none))
      "i-abc123" St.init).2.1 _
      [{ InstanceId := some "i-000000", InstanceState := none }]
      { InstanceId := some "i-abc123", InstanceState := some { Name := some "stopped" } }
      [{ InstanceId := none, InstanceState := some { Name := some "pending" } }]
      "stopped" rfl rfl
      (by
        intro p hp
        rw [List.mem_singleton] at hp
        subst hp
        exact ⟨"i-000000", rfl, by decide⟩)
      rfl rfl,
   (checkForInstanceState_result
      (stubEnv sampleOptions [emptyStatusAnswer] (instancesAnswer "i-abc123" none))
      "i-abc123" St.init).2.2.1 _ rfl (by intro p hp; cases hp),
   (checkForInstanceState_result
      (stubEnv sampleOptions [] (instancesAnswer "i-abc123" none))
      "i-abc123" St.init).1 "RequestError: send request failed" rfl⟩

/-- C9: when the options file cannot be read, or its content is not valid JSON,
the run panics inside `initOptions`: the only effect is the attempt to read
the file (no session, no compute or DNS request) and the two identifiers stay
unassigned.  This holds for the body of `main` on any file name and command,
and so for `main`, which reads `EC2Commands.json`. -/
theorem malformed_options_abort (osArgs : List String) (env : Env) (fuel : Nat)
    (fileOptions cmdType : String) (s : St)
    (h : (∃ err, env.readFile fileOptions = .error err) ∨
      (∃ file, env.readFile fileOptions = .ok file ∧ env.jsonValid file = false)) :
    (∃ msg, mainBody env fuel fileOptions cmdType s =
      .panic msg { s with trace := s.trace ++ [.readFile fileOptions] }) ∧
    (fileOptions = "EC2Commands.json" →
      ∃ msg, main osArgs env fuel s =
        .panic msg { s with trace := s.trace ++ [.readFile "EC2Commands.json"] }) := by
  have key : ∀ cmd, ∃ msg, mainBody env fuel fileOptions cmd s =
      .panic msg { s with trace := s.trace ++ [.readFile fileOptions] } := by
    intro cmd
    rcases h with ⟨err, herr⟩ | ⟨file, hfile, hvalid⟩
    · exact ⟨err, by simp [mainBody, bind, Prog.bind, initOptions, herr]⟩
    · exact ⟨"Error: invalid global options file",
        by simp [mainBody, bind, Prog.bind, initOptions, hfile, hvalid]⟩
  refine ⟨key cmdType, ?_⟩
  intro hname
  subst hname
  exact key "status"

/-- C9 on an options file cut off in the middle (not valid JSON), with `-cmd start`. -/
theorem malformed_options_abort_witness :
    ((∃ err, (stubEnv truncatedOptions [statusAnswer "i-abc123" "stopped"]
        (instancesAnswer "i-abc123" none)).readFile "EC2Commands.json" = .error err) ∨
      (∃ file, (stubEnv truncatedOptions [statusAnswer "i-abc123" "stopped"]
        (instancesAnswer "i-abc123" none)).readFile "EC2Commands.json" = .ok file ∧
        (stubEnv truncatedOptions [statusAnswer "i-abc123" "stopped"]
          (instancesAnswer "i-abc123" none)).jsonValid file = false)) ∧
    ∃ msg, main ["-cmd", "start"]
        (stubEnv truncatedOptions [statusAnswer "i-abc123" "stopped"]
          (instancesAnswer "i-abc123" none)) 10 St.init =
      .panic msg { St.init with trace := St.init.trace ++ [.readFile "EC2Commands.json"] } :=
  ⟨Or.inr ⟨truncatedOptions, rfl, by decide!⟩,
   (malformed_options_abort ["-cmd", "start"]
      (stubEnv truncatedOptions [statusAnswer "i-abc123" "stopped"]
        (instancesAnswer "i-abc123" none)) 10 "EC2Commands.json" "start" St.init
      (Or.inr ⟨truncatedOptions, rfl, by decide!⟩)).2 rfl⟩

/-- C10 as stated fails: on an instance found `pending`, the start branch sends no
start request and makes no further probe, yet its lookup finds an address and
it submits the DNS change; the only probe of the run returned `pending`. -/
theorem dns_upsert_after_pending_probe :
    mainBody
        (stubEnv sampleOptions [statusAnswer "i-abc123" "pending"]
          (instancesAnswer "i-abc123" (some "203.0.113.5")))
        10 "EC2Commands.json" "start" St.init =
      .ret ()
        { afterProbe "pending" with
          trace := (afterProbe "pending").trace ++
            [.println "Instance has been started", lookupEvent "i-abc123",
             .println "Instance address = 203.0.113.5",
             .changeResourceRecordSets (inputDomains "203.0.113.5" "Z123ABC"),
             .println "Record in domain updated to 203.0.113.5"],
          statusCalls := 1,
          instancesCalls := 1 } ∧
    probeResult
        (stubEnv sampleOptions [statusAnswer "i-abc123" "pending"]
          (instancesAnswer "i-abc123" (some "203.0.113.5")))
        0 "i-abc123" = some "pending" := by
  refine ⟨by decide!, by decide!⟩

/-- C10 as amended: in every run of the start branch, a DNS change request is
submitted only when the initial state was not `running` and the public-address
lookup found an address; when the initial state was `stopped`, a probe was
made after it and the most recent probe returned `running` (the branch makes
no probe after the lookup, so the most recent probe before the submission is
the last one of the run, numbered `statusCalls - 1`); and when the lookup does
not return an address no DNS change request is submitted. -/
theorem dns_upsert_only_after_lookup (env : Env) (fuel : Nat) (cur : String) (s : St) :
    ∃ new,
      (startBranch env fuel cur s).state.trace = s.trace ++ new ∧
      (∀ req, Event.changeResourceRecordSets req ∈ new →
        cur ≠ "running" ∧
        (∃ a, lookupResult env s.instancesCalls s.myInstanceID = .ok (some a)) ∧
        (cur = "stopped" →
          s.statusCalls < (startBranch env fuel cur s).state.statusCalls ∧
          probeResult env ((startBranch env fuel cur s).state.statusCalls - 1)
            s.myInstanceID = some "running")) ∧
      ((∀ a, lookupResult env s.instancesCalls s.myInstanceID ≠ .ok (some a)) →
        ∀ req, Event.changeResourceRecordSets req ∉ new) := by
  obtain ⟨new, h1, h2⟩ := startBranch_dns env fuel cur s
  refine ⟨new, h1, ?_, ?_⟩
  · intro req hreq
    obtain ⟨hrun, ⟨a, ha, _⟩, hstop⟩ := h2 req hreq
    exact ⟨hrun, ⟨a, ha⟩, hstop⟩
  · intro hno req hreq
    obtain ⟨_, ⟨a, ha, _⟩, _⟩ := h2 req hreq
    exact hno a ha

/-- C10 as amended, on a run from `stopped` whose lookup finds no instance: the
trace gains no DNS change request. -/
theorem dns_upsert_only_after_lookup_witness :
    ∃ new,
      (startBranch
        (stubEnv sampleOptions
          [statusAnswer "i-abc123" "stopped", statusAnswer "i-abc123" "running"]
          { Reservations := [] })
        1 "stopped" (afterProbe "stopped")).state.trace = (afterProbe "stopped").trace ++ new ∧
      ∀ req, Event.changeResourceRecordSets req ∉ new := by
  obtain ⟨new, h1, _, h3⟩ := dns_upsert_only_after_lookup
    (stubEnv sampleOptions
      [statusAnswer "i-abc123" "stopped", statusAnswer "i-abc123" "running"]
      { Reservations := [] })
    1 "stopped" (afterProbe "stopped")
  exact ⟨new, h1, h3 (by
    intro a
    simp [lookupResult, stubEnv, scanReservations])⟩

end EC2Command
